import Mathlib

/-!
Shallow embedding of `fsps/filters.py`: the FSPS filter catalog, the lazy
reference-table cache, and the `find_filter` substring search, together with
theorems checking the module's documented behavior.
-/

set_option maxRecDepth 4096

namespace FSPS

/-- One named photometric bandpass, as built by the `Filter` class constructor
of `filters.py` (fields `index`, `name`, `fullname`). -/
structure Filter where
  index : Int
  name : String
  fullname : String
deriving DecidableEq

/-- Python string lowercasing `str.lower()`, mapped over the characters of
the string; agrees with the runtime lowercasing on the ASCII catalog data.
(Defined by a structural `List.map` so that it reduces in the kernel.) -/
def strLower (s : String) : String := String.mk (s.toList.map Char.toLower)

/-- Constructor semantics of `Filter.__init__(self, index, name, fullname)`:
stores `index - 1`, the lowercased `name`, and `fullname` unchanged; it
performs no validation of `index`. -/
def Filter.init (index : Int) (name fullname : String) : Filter :=
  { index := index - 1, name := strLower name, fullname := fullname }

/-- Raw catalog data: the hard-coded list literal `FILTERS` of `filters.py`
(before it is rebound to the dict built from it), transcribed verbatim. -/
def FILTERS_raw : List (Int × String × String) := [
  (1, "V", "Johnson V (from Bessell 1990 via M. Blanton) - this defines V=0 for the Vega system"),
  (2, "U", "Johnson U (from Bessell 1990 via M. Blanton)"),
  (3, "B", "Johnson B (from Bessell 1990 via M. Blanton)"),
  (4, "Buser_B2", "Johnson B (from BC03. This is the B2 filter from Buser)"),
  (5, "Cousins_R", "Cousins R (from Bessell 1990 via M. Blanton)"),
  (6, "Cousins_I", "Cousins I (from Bessell 1990 via M. Blanton)"),
  (7, "CFHT_B", "CFHT B-band (from Blanton\x27s kcorrect)"),
  (8, "CFHT_R", "CFHT R-band (from Blanton\x27s kcorrect)"),
  (9, "CFHT_I", "CFHT I-band (from Blanton\x27s kcorrect)"),
  (10, "2MASS_J", "2MASS J filter (total response w/atm)"),
  (11, "2MASS_H", "2MASS H filter (total response w/atm))"),
  (12, "2MASS_Ks", "2MASS Ks filter (total response w/atm)"),
  (13, "SDSS_u", "SDSS Camera u Response Function, airmass = 1.3 (June 2001)"),
  (14, "SDSS_g", "SDSS Camera g Response Function, airmass = 1.3 (June 2001)"),
  (15, "SDSS_r", "SDSS Camera r Response Function, airmass = 1.3 (June 2001)"),
  (16, "SDSS_i", "SDSS Camera i Response Function, airmass = 1.3 (June 2001)"),
  (17, "SDSS_z", "SDSS Camera z Response Function, airmass = 1.3 (June 2001)"),
  (18, "WFPC2_F255W", "HST WFPC2 F255W (http://acs.pha.jhu.edu/instrument/photometry/)"),
  (19, "WFPC2_F300W", "HST WFPC2 F300W (http://acs.pha.jhu.edu/instrument/photometry/)"),
  (20, "WFPC2_F336W", "HST WFPC2 F336W (http://acs.pha.jhu.edu/instrument/photometry/)"),
  (21, "WFPC2_F439W", "HST WFPC2 F439W (http://acs.pha.jhu.edu/instrument/photometry/)"),
  (22, "WFPC2_F450W", "HST WFPC2 F450W (http://acs.pha.jhu.edu/instrument/photometry/)"),
  (23, "WFPC2_F555W", "HST WFPC2 F555W (http://acs.pha.jhu.edu/instrument/photometry/)"),
  (24, "WFPC2_F606W", "HST WFPC2 F606W (http://acs.pha.jhu.edu/instrument/photometry/)"),
  (25, "WFPC2_F814W", "HST WFPC2 F814W (http://acs.pha.jhu.edu/instrument/photometry/)"),
  (26, "WFPC2_F850LP", "HST WFPC2 F850LP (http://acs.pha.jhu.edu/instrument/photometry/)"),
  (27, "WFC_ACS_F435W", "HST WFC ACS F435W (http://acs.pha.jhu.edu/instrument/photometry/)"),
  (28, "WFC_ACS_F475W", "HST ACS F475W (http://acs.pha.jhu.edu/instrument/photometry/)"),
  (29, "WFC_ACS_F555W", "HST ACS F555W (http://acs.pha.jhu.edu/instrument/photometry/"),
  (30, "WFC_ACS_F606W", "HST WFC ACS F606W (http://acs.pha.jhu.edu/instrument/photometry/)"),
  (31, "WFC_ACS_F625W", "HST ACS F625W (http://acs.pha.jhu.edu/instrument/photometry/)"),
  (32, "WFC_ACS_F775W", "HST WFC ACS F775W (http://acs.pha.jhu.edu/instrument/photometry/)"),
  (33, "WFC_ACS_F814W", "HST WFC ACS F814W (http://acs.pha.jhu.edu/instrument/photometry/)"),
  (34, "WFC_ACS_F850LP", "WFC ACS F850LP (http://acs.pha.jhu.edu/instrument/photometry/)"),
  (35, "WFC3_UVIS_F218W", "HST WFC3 UVIS F218W (http://www.stsci.edu/~WFC3/UVIS/SystemThroughput/) Chip #1"),
  (36, "WFC3_UVIS_F225W", "HST WFC3 UVIS F225W (http://www.stsci.edu/~WFC3/UVIS/SystemThroughput/) Chip #1"),
  (37, "WFC3_UVIS_F275W", "HST WFC3 UVIS F275W (http://www.stsci.edu/~WFC3/UVIS/SystemThroughput/) Chip #1"),
  (38, "WFC3_UVIS_F336W", "HST WFC3 UVIS F336W (http://www.stsci.edu/~WFC3/UVIS/SystemThroughput/) Chip #1"),
  (39, "WFC3_UVIS_F390W", "HST WFC3 UVIS F390W (http://www.stsci.edu/~WFC3/UVIS/SystemThroughput/) Chip #1"),
  (40, "WFC3_UVIS_F438W", "HST WFC3 UVIS F438W (http://www.stsci.edu/~WFC3/UVIS/SystemThroughput/) Chip #1"),
  (41, "WFC3_UVIS_F475W", "HST WFC3 UVIS F475W (http://www.stsci.edu/~WFC3/UVIS/SystemThroughput/) Chip #1"),
  (42, "WFC3_UVIS_F555W", "HST WFC3 UVIS F555W (http://www.stsci.edu/~WFC3/UVIS/SystemThroughput/) Chip #1"),
  (43, "WFC3_UVIS_F606W", "HST WFC3 UVIS F606W (http://www.stsci.edu/~WFC3/UVIS/SystemThroughput/) Chip #1"),
  (44, "WFC3_UVIS_F775W", "HST WFC3 UVIS F775W (http://www.stsci.edu/~WFC3/UVIS/SystemThroughput/) Chip #1"),
  (45, "WFC3_UVIS_F814W", "HST WFC3 UVIS F814W (http://www.stsci.edu/~WFC3/UVIS/SystemThroughput/) Chip #1"),
  (46, "WFC3_UVIS_F850LP", "HST WFC3 UVIS F850LP (http://www.stsci.edu/~WFC3/UVIS/SystemThroughput/) Chip #1"),
  (47, "WFC3_IR_F098M", "HST WFC3 IR F098M (http://www.stsci.edu/~WFC3/UVIS/SystemThroughput/)"),
  (48, "WFC3_IR_F105W", "HST WFC3 IR F105W (http://www.stsci.edu/~WFC3/UVIS/SystemThroughput/)"),
  (49, "WFC3_IR_F110W", "HST WFC3 IR F110W (http://www.stsci.edu/~WFC3/UVIS/SystemThroughput/)"),
  (50, "WFC3_IR_F125W", "HST WFC3 IR F125W (http://www.stsci.edu/~WFC3/UVIS/SystemThroughput/)"),
  (51, "WFC3_IR_F140W", "HST WFC3 IR F140W (http://www.stsci.edu/~WFC3/UVIS/SystemThroughput/)"),
  (52, "WFC3_IR_F160W", "HST WFC3 IR F160W (http://www.stsci.edu/~WFC3/UVIS/SystemThroughput/)"),
  (53, "IRAC_1", "Spitzer IRAC Channel 1 (3.6um)"),
  (54, "IRAC_2", "Spitzer IRAC Channel 2 (4.5um)"),
  (55, "IRAC_3", "Spitzer IRAC Channel 3 (5.8um)"),
  (56, "IRAC_4", "Spitzer IRAC Channel 4 (8.0um)"),
  (57, "ISAAC_Ks", "ISAAC Ks"),
  (58, "FORS_V", "FORS V"),
  (59, "FORS_R", "FORS R"),
  (60, "NICMOS_F110W", "HST NICMOS F110W"),
  (61, "NICMOS_F160W", "HST NICMOS F160W"),
  (62, "GALEX_FUV", "GALEX FUV"),
  (63, "GALEX_NUV", "GALEX NUV"),
  (64, "DES_g", "DES g (from Huan Lin, for DES camera)"),
  (65, "DES_r", "DES r (from Huan Lin, for DES camera)"),
  (66, "DES_i", "DES i (from Huan Lin, for DES camera)"),
  (67, "DES_z", "DES z (from Huan Lin, for DES camera)"),
  (68, "DES_Y", "DES Y (from Huan Lin, for DES camera)"),
  (69, "WFCAM_Z", "WFCAM Z (from Hewett et al. 2006, via A. Smith)"),
  (70, "WFCAM_Y", "WFCAM Y (from Hewett et al. 2006, via A. Smith)"),
  (71, "WFCAM_J", "WFCAM J (from Hewett et al. 2006, via A. Smith)"),
  (72, "WFCAM_H", "WFCAM H (from Hewett et al. 2006, via A. Smith)"),
  (73, "WFCAM_K", "WFCAM K (from Hewett et al. 2006, via A. Smith)"),
  (74, "Steidel_Un", "Steidel Un (via A. Shapley; see Steidel et al. 2003)"),
  (75, "Steidel_G", "Steidel G  (via A. Shapley; see Steidel et al. 2003)"),
  (76, "Steidel_Rs", "Steidel Rs (via A. Shapley; see Steidel et al. 2003)"),
  (77, "Steidel_I", "Steidel I  (via A. Shapley; see Steidel et al. 2003)"),
  (78, "MegaCam_u", "CFHT MegaCam u* (http://cadcwww.dao.nrc.ca/megapipe/docs/filters.html, Dec 2010)"),
  (79, "MegaCam_g", "CFHT MegaCam g\x27 (http://cadcwww.dao.nrc.ca/megapipe/docs/filters.html)"),
  (80, "MegaCam_r", "CFHT MegaCam r\x27 (http://cadcwww.dao.nrc.ca/megapipe/docs/filters.html)"),
  (81, "MegaCam_i", "CFHT MegaCam i\x27 (http://cadcwww.dao.nrc.ca/megapipe/docs/filters.html)"),
  (82, "MegaCam_z", "CFHT MegaCam z\x27 (http://cadcwww.dao.nrc.ca/megapipe/docs/filters.html)"),
  (83, "WISE_W1", "3.4um WISE W1 (http://www.astro.ucla.edu/~wright/WISE/passbands.html)"),
  (84, "WISE_W2", "4.6um WISE W2 (http://www.astro.ucla.edu/~wright/WISE/passbands.html)"),
  (85, "WISE_W3", "12um WISE W3 (http://www.astro.ucla.edu/~wright/WISE/passbands.html)"),
  (86, "WISE_W4", "22um WISE W4 22um (http://www.astro.ucla.edu/~wright/WISE/passbands.html)"),
  (87, "UVOT_W2", "UVOT W2 (from Erik Hoversten, 2011)"),
  (88, "UVOT_M2", "UVOT M2 (from Erik Hoversten, 2011)"),
  (89, "UVOT_W1", "UVOT W1 (from Erik Hoversten, 2011)"),
  (90, "MIPS_24", "Spitzer MIPS 24um"),
  (91, "MIPS_70", "Spitzer MIPS 70um"),
  (92, "MIPS_160", "Spitzer MIPS 160um"),
  (93, "SCUBA_450WB", "JCMT SCUBA 450WB (www.jach.hawaii.edu/JCMT/continuum/background/background.html)"),
  (94, "SCUBA_850WB", "JCMT SCUBA 850WB"),
  (95, "PACS_70", "Herschel PACS 70um"),
  (96, "PACS_100", "Herschel PACS 100um"),
  (97, "PACS_160", "Herschel PACS 160um"),
  (98, "SPIRE_250", "Herschel SPIRE 250um"),
  (99, "SPIRE_350", "Herschel SPIRE 350um"),
  (100, "SPIRE_500", "Herschel SPIRE 500um"),
  (101, "IRAS_12", "IRAS 12um"),
  (102, "IRAS_25", "IRAS 25um"),
  (103, "IRAS_60", "IRAS 60um"),
  (104, "IRAS_100", "IRAS 100um"),
  (105, "Bessell_L", "Bessell & Brett (1988) L band"),
  (106, "Bessell_LP", "Bessell & Brett (1988) L\x27 band"),
  (107, "Bessell_M", "Bessell & Brett (1988) M band"),
  (108, "Stromgren_u", "Stromgren u (Bessell 2011)"),
  (109, "Stromgren_v", "Stromgren v (Bessell 2011)"),
  (110, "Stromgren_b", "Stromgren b (Bessell 2011)"),
  (111, "Stromgren_y", "Stromgren y (Bessell 2011)"),
  (112, "1500A", "Idealized 1500A bandpass with 15% bandwidth, FWHM = 225A from M. Dickinson"),
  (113, "2300A", "Idealized 2300A bandpass with 15% bandwidth, FWHM = 345A from M. Dickinson"),
  (114, "2800A", "Idealized 2800A bandpass with 15% bandwidth, FWHM = 420A from M. Dickinson"),
  (115, "JWST_F070W", "(http://www.stsci.edu/jwst/instruments/nircam/instrumentdesign/filters/)"),
  (116, "JWST_F090W", "(http://www.stsci.edu/jwst/instruments/nircam/instrumentdesign/filters/)"),
  (117, "JWST_F115W", "(http://www.stsci.edu/jwst/instruments/nircam/instrumentdesign/filters/)"),
  (118, "JWST_F150W", "(http://www.stsci.edu/jwst/instruments/nircam/instrumentdesign/filters/)"),
  (119, "JWST_F200W", "(http://www.stsci.edu/jwst/instruments/nircam/instrumentdesign/filters/)"),
  (120, "JWST_F277W", "(http://www.stsci.edu/jwst/instruments/nircam/instrumentdesign/filters/)"),
  (121, "JWST_F356W", "(http://www.stsci.edu/jwst/instruments/nircam/instrumentdesign/filters/)"),
  (122, "JWST_F444W", "(http://www.stsci.edu/jwst/instruments/nircam/instrumentdesign/filters/)")]

/-- Python `dict` insertion of one key/value pair into an association list:
an existing key keeps its position and gets the new value, a new key is
appended at the end. -/
def dictInsert (d : List (String × Filter)) (k : String) (v : Filter) :
    List (String × Filter) :=
  if d.any (fun p => p.1 == k) then d.map (fun p => if p.1 == k then (p.1, v) else p)
  else d ++ [(k, v)]

/-- The catalog mapping `FILTERS = dict([(f[1].lower(), Filter(*f)) for f in FILTERS])`,
modelled as an insertion-ordered association list with Python dict semantics. -/
def FILTERS : List (String × Filter) :=
  FILTERS_raw.foldl (fun d f => dictInsert d (strLower f.2.1) (Filter.init f.1 f.2.1 f.2.2)) []

/-- The keys of the catalog mapping, in its iteration (insertion) order,
as produced by `FILTERS.keys()`. -/
def FILTERS_keys : List String := FILTERS.map Prod.fst

/-- Embedding of `find_filter(band)`: lowercase the query, then scan the
catalog keys in order, appending each key that contains the query as a
substring (Python `b in k`). -/
def find_filter (band : String) : List String :=
  let b := strLower band
  FILTERS_keys.foldl
    (fun possible k => if b.toList <:+: k.toList then possible ++ [k] else possible) []

/-- A whitespace-delimited numeric table as parsed by `np.loadtxt`: a
two-dimensional array modelled as a list of rows, with entries as rationals. -/
abbrev Table := List (List Rat)

/-- The external environment: the parsed contents of the two reference files,
`$SPS_HOME/data/magsun.dat` and `$SPS_HOME/data/filter_lambda_eff.dat`. -/
structure Env where
  magsun : Table
  lambdaEff : Table

/-- The module-level mutable state of `filters.py`: the two lazy caches
`MSUN_TABLE` and `LAMBDA_EFF_TABLE` (both initially `None`), instrumented
with counters for the number of calls to the file-reading loaders
(a load-count probe on the file-access layer). -/
structure ModuleState where
  MSUN_TABLE : Option Table
  LAMBDA_EFF_TABLE : Option Table
  msunLoadCount : Nat
  lambdaEffLoadCount : Nat
deriving DecidableEq

/-- Module state at import time: both caches are `None`, no load happened. -/
def initialState : ModuleState := ⟨none, none, 0, 0⟩

/-- Embedding of `Filter._load_msun_table`: reads `$SPS_HOME/data/magsun.dat`
into the global `MSUN_TABLE` cache (one counted file access). -/
def load_msun_table (env : Env) (st : ModuleState) : ModuleState :=
  { st with MSUN_TABLE := some env.magsun, msunLoadCount := st.msunLoadCount + 1 }

/-- Embedding of `Filter._load_lambda_eff_table`: reads
`$SPS_HOME/data/filter_lambda_eff.dat` into the global `LAMBDA_EFF_TABLE`
cache (one counted file access). -/
def load_lambda_eff_table (env : Env) (st : ModuleState) : ModuleState :=
  { st with LAMBDA_EFF_TABLE := some env.lambdaEff,
            lambdaEffLoadCount := st.lambdaEffLoadCount + 1 }

/-- Resolution of a numpy scalar integer index on an axis of length `n`:
a negative index is shifted by `n` (wraparound); a resolved index outside
`[0, n)` is an `IndexError`, modelled as `none`. -/
def npIndex (n : Nat) (i : Int) : Option Nat :=
  let j := if i < 0 then i + n else i
  if 0 ≤ j ∧ j < n then some j.toNat else none

/-- Two-dimensional numpy element access `t[i, j]` with scalar integer
indices: `none` models an `IndexError` on either axis. -/
def npGet2 (t : Table) (i j : Int) : Option Rat :=
  (npIndex t.length i).bind fun r =>
    t[r]?.bind fun row =>
      (npIndex row.length j).bind fun c => row[c]?

/-- Embedding of the property `Filter.msun_ab`: loads the solar-magnitude
table if the cache is `None`, then returns `MSUN_TABLE[self.index, 1]`.
The result pairs the returned value (`none` = a raised error) with the
module state after the access. -/
def msun_ab (env : Env) (st : ModuleState) (f : Filter) : Option Rat × ModuleState :=
  let st1 := if st.MSUN_TABLE = none then load_msun_table env st else st
  match st1.MSUN_TABLE with
  | some t => (npGet2 t f.index 1, st1)
  | none => (none, st1)

/-- Embedding of the property `Filter.msun_vega`: like `msun_ab` but
returns `MSUN_TABLE[self.index, 2]`. -/
def msun_vega (env : Env) (st : ModuleState) (f : Filter) : Option Rat × ModuleState :=
  let st1 := if st.MSUN_TABLE = none then load_msun_table env st else st
  match st1.MSUN_TABLE with
  | some t => (npGet2 t f.index 2, st1)
  | none => (none, st1)

/-- Embedding of the property `Filter.lambda_eff`: loads the
effective-wavelength table if the cache is `None`, then returns
`LAMBDA_EFF_TABLE[self.index, 1]`. -/
def lambda_eff (env : Env) (st : ModuleState) (f : Filter) : Option Rat × ModuleState :=
  let st1 := if st.LAMBDA_EFF_TABLE = none then load_lambda_eff_table env st else st
  match st1.LAMBDA_EFF_TABLE with
  | some t => (npGet2 t f.index 1, st1)
  | none => (none, st1)

/-- Embedding of `find_filter` as a state transformer over the module state
and the file environment: its Python body binds no global and performs no
file access, so the translation of its statements neither reads nor writes
either one. -/
def find_filter_run (_env : Env) (st : ModuleState) (band : String) :
    List String × ModuleState :=
  let b := strLower band
  (FILTERS_keys.foldl
    (fun possible k => if b.toList <:+: k.toList then possible ++ [k] else possible) [],
   st)

end FSPS
namespace FSPS

/-- Resolution of a nonnegative in-range numpy index is the index itself. -/
theorem npIndex_of_nonneg_lt (n : Nat) (i : Int) (h0 : 0 ≤ i) (h : i < n) :
    npIndex n i = some i.toNat := by
  have h1 : ¬ i < 0 := by omega
  simp [npIndex, h1, h0, h]

/-- Resolution of an index at or past the axis length is an `IndexError`. -/
theorem npIndex_of_ge (n : Nat) (i : Int) (h : (n : Int) ≤ i) :
    npIndex n i = none := by
  have h1 : ¬ i < 0 := by omega
  have h2 : ¬ (0 ≤ i ∧ i < (n : Int)) := by omega
  simp only [npIndex, if_neg h1, if_neg h2]

/-- Resolution of the index `-1` on a nonempty axis wraps to the last slot. -/
theorem npIndex_neg_one (n : Nat) (h : n ≠ 0) :
    npIndex n (-1) = some (n - 1) := by
  have h2 : (0 : Int) ≤ -1 + n ∧ -1 + (n : Int) < n := by omega
  have h3 : ((-1) + (n : Int)).toNat = n - 1 := by omega
  simp [npIndex, h2, h3]

/-- Element access at a valid nonnegative row index and a valid column
returns entry `j` of row `i`, and is not an `IndexError`. -/
theorem npGet2_valid (t : Table) (i : Int) (j : Nat) (h0 : 0 ≤ i)
    (hi : i < t.length) (hj : ∀ row ∈ t, j < row.length) :
    npGet2 t i j = t[i.toNat]?.bind (fun row => row[j]?) ∧
    npGet2 t i j ≠ none := by
  have hlt : i.toNat < t.length := by omega
  have hrow : t[i.toNat]? = some (t[i.toNat]) := List.getElem?_eq_getElem hlt
  have hmem : t[i.toNat] ∈ t := List.getElem_mem hlt
  have hjlt : j < (t[i.toNat]).length := hj _ hmem
  have e1 : npIndex t.length i = some i.toNat := npIndex_of_nonneg_lt _ _ h0 hi
  have e2 : npIndex (t[i.toNat]).length (j : Int) = some j := by
    rw [npIndex_of_nonneg_lt _ _ (by omega) (by exact_mod_cast hjlt)]
    simp
  have key : npGet2 t i j = (t[i.toNat])[j]? := by
    simp only [npGet2, e1, Option.some_bind, hrow, e2]
  refine ⟨?_, ?_⟩
  · rw [key, hrow, Option.some_bind]
  · rw [key]
    simp [List.getElem?_eq_getElem hjlt]

/-- Element access with a row index at or past the number of rows is an
`IndexError`, whatever the column. -/
theorem npGet2_of_ge (t : Table) (i j : Int) (h : (t.length : Int) ≤ i) :
    npGet2 t i j = none := by
  simp only [npGet2, npIndex_of_ge t.length i h, Option.none_bind]

/-- Element access at row `-1` of a nonempty table reads the last row. -/
theorem npGet2_neg_one (t : Table) (j : Nat) (h : t ≠ [])
    (hj : ∀ row ∈ t, j < row.length) :
    npGet2 t (-1) j = (t.getLast h)[j]? ∧ npGet2 t (-1) j ≠ none := by
  have hne : t.length ≠ 0 := by
    have := List.length_pos.mpr h
    omega
  have hlt : t.length - 1 < t.length := by omega
  have hlast : t.getLast h = t[t.length - 1] := List.getLast_eq_getElem t h
  have hrow : t[t.length - 1]? = some (t[t.length - 1]) := List.getElem?_eq_getElem hlt
  have hmem : t[t.length - 1] ∈ t := List.getElem_mem hlt
  have hjlt : j < (t[t.length - 1]).length := hj _ hmem
  have e2 : npIndex (t[t.length - 1]).length (j : Int) = some j := by
    rw [npIndex_of_nonneg_lt _ _ (by omega) (by exact_mod_cast hjlt)]
    simp
  have key : npGet2 t (-1) j = (t[t.length - 1])[j]? := by
    simp only [npGet2, npIndex_neg_one t.length hne, Option.some_bind, hrow, e2]
  refine ⟨?_, ?_⟩
  · rw [key, hlast]
  · rw [key]
    simp [List.getElem?_eq_getElem hjlt]

end FSPS
namespace FSPS

/-- The append-accumulating loop of `find_filter` is a `List.filter`. -/
theorem foldl_append_eq_filter {α : Type} (P : α → Prop) [DecidablePred P]
    (l acc : List α) :
    l.foldl (fun possible k => if P k then possible ++ [k] else possible) acc
      = acc ++ l.filter (fun k => decide (P k)) := by
  induction l generalizing acc with
  | nil => simp
  | cons x xs ih =>
      by_cases h : P x <;>
        simp [List.foldl_cons, List.filter_cons, h, ih, List.append_assoc]

/-- C2: for every input string `band`, `find_filter band` returns exactly the
catalog keys that contain the lowercased query as a substring (the key
contains the query, not the reverse), in the catalog mapping's insertion
order, which is the ascending declared catalog order; when no key matches
it returns the empty list rather than an error. -/
theorem find_filter_characterization (band : String) :
    (∀ k, k ∈ find_filter band ↔
        k ∈ FILTERS_keys ∧ (strLower band).toList <:+: k.toList)
    ∧ (find_filter band).Sublist FILTERS_keys
    ∧ FILTERS_keys = FILTERS_raw.map (fun f => strLower f.2.1)
    ∧ ((∀ k ∈ FILTERS_keys, ¬ (strLower band).toList <:+: k.toList) →
        find_filter band = []) := by
  have hff : find_filter band
      = FILTERS_keys.filter (fun k => decide ((strLower band).toList <:+: k.toList)) := by
    simpa using foldl_append_eq_filter
      (fun k => (strLower band).toList <:+: k.toList) FILTERS_keys []
  refine ⟨?_, ?_, ?_, ?_⟩
  · intro k
    rw [hff, List.mem_filter]
    simp
  · rw [hff]; exact List.filter_sublist _
  · decide
  · intro h
    rw [hff, List.filter_eq_nil_iff]
    intro k hk
    simpa using h k hk

/-- C2 (witness): instantiations of the characterization at concrete
queries: a query matching no key yields the empty list, and a matching key
is returned. -/
theorem find_filter_characterization_witness :
    find_filter "nonexistent_xyz" = [] ∧ "wfpc2_f555w" ∈ find_filter "F555W" := by
  constructor
  · exact (find_filter_characterization "nonexistent_xyz").2.2.2 (by decide)
  · exact ((find_filter_characterization "F555W").1 "wfpc2_f555w").2 (by decide)

end FSPS
namespace FSPS

/-- C1 (counterexample): `find_filter "F555W"` does not return exactly the
two keys of the docstring example; it also returns `"wfc3_uvis_f555w"`,
a third catalog key containing `"f555w"`. -/
theorem find_filter_F555W_counterexample :
    "wfc3_uvis_f555w" ∈ find_filter "F555W" ∧
    "wfc3_uvis_f555w" ∉ (["wfpc2_f555w", "wfc_acs_f555w"] : List String) ∧
    find_filter "F555W" ≠ ["wfpc2_f555w", "wfc_acs_f555w"] := by
  refine ⟨by decide, by decide, by decide⟩

/-- C1 (amended): for the catalog declared in this module,
`find_filter "F555W"` returns exactly the catalog keys containing the
lowercased query as a substring, namely the three keys
`wfpc2_f555w`, `wfc_acs_f555w` and `wfc3_uvis_f555w`. -/
theorem find_filter_F555W :
    find_filter "F555W" = ["wfpc2_f555w", "wfc_acs_f555w", "wfc3_uvis_f555w"] ∧
    find_filter "F555W"
      = FILTERS_keys.filter (fun k => decide ((strLower "F555W").toList <:+: k.toList)) := by
  refine ⟨by decide, by decide⟩

/-- C3: `find_filter ""` returns every key of the catalog mapping, in order. -/
theorem find_filter_empty_string : find_filter "" = FILTERS_keys := by decide

/-- C4: construction of a `Filter` from a declared triple stores the declared
index minus one, the lowercased declared short name, and the full name
unchanged; it is total in the declared index (no validation at all). -/
theorem Filter_init_spec (i : Int) (n fn : String) :
    (Filter.init i n fn).index = i - 1 ∧
    (Filter.init i n fn).name = strLower n ∧
    (Filter.init i n fn).fullname = fn :=
  ⟨rfl, rfl, rfl⟩

/-- C5: the lowercased declared short names are pairwise distinct, so the
catalog mapping has one entry per declared row: 122 keys, all distinct. -/
theorem FILTERS_keys_nodup :
    FILTERS_keys.Nodup ∧ FILTERS.length = FILTERS_raw.length ∧
    FILTERS_raw.length = 122 := by
  refine ⟨by decide, by decide, by decide⟩

/-- C10: `find_filter` is pure: it returns the module state unchanged, its
result does not depend on the module state (loaded or unloaded caches) nor
on the file environment, and it agrees with the pure `find_filter`. -/
theorem find_filter_run_pure (env env2 : Env) (st st2 : ModuleState) (band : String) :
    find_filter_run env st band = (find_filter band, st) ∧
    (find_filter_run env st band).1 = (find_filter_run env2 st2 band).1 :=
  ⟨rfl, rfl⟩

end FSPS
namespace FSPS

/-- Reading `msun_ab` when the cache is unloaded or already holds the file's
table indexes the file's solar-magnitude table. -/
theorem msun_ab_table (env : Env) (st : ModuleState) (f : Filter)
    (h : st.MSUN_TABLE = none ∨ st.MSUN_TABLE = some env.magsun) :
    (msun_ab env st f).1 = npGet2 env.magsun f.index 1 := by
  rcases h with h | h <;> simp [msun_ab, load_msun_table, h]

/-- Reading `msun_vega` when the cache is unloaded or already holds the
file's table indexes the file's solar-magnitude table. -/
theorem msun_vega_table (env : Env) (st : ModuleState) (f : Filter)
    (h : st.MSUN_TABLE = none ∨ st.MSUN_TABLE = some env.magsun) :
    (msun_vega env st f).1 = npGet2 env.magsun f.index 2 := by
  rcases h with h | h <;> simp [msun_vega, load_msun_table, h]

/-- Reading `lambda_eff` when the cache is unloaded or already holds the
file's table indexes the file's effective-wavelength table. -/
theorem lambda_eff_table (env : Env) (st : ModuleState) (f : Filter)
    (h : st.LAMBDA_EFF_TABLE = none ∨ st.LAMBDA_EFF_TABLE = some env.lambdaEff) :
    (lambda_eff env st f).1 = npGet2 env.lambdaEff f.index 1 := by
  rcases h with h | h <;> simp [lambda_eff, load_lambda_eff_table, h]

/-- C6: for a `Filter` whose index is a valid row of well-formed reference
tables (solar-magnitude rows of width at least 3, wavelength rows of width
at least 2), `msun_ab` returns the solar-magnitude table's entry at row
`index`, column 1; `msun_vega` the entry at row `index`, column 2; and
`lambda_eff` the wavelength table's entry at row `index`, column 1 — each a
defined value (no error), matching the file row and column. -/
theorem derived_properties_match_tables (env : Env) (st : ModuleState) (f : Filter)
    (hmr : ∀ row ∈ env.magsun, 3 ≤ row.length)
    (hlr : ∀ row ∈ env.lambdaEff, 2 ≤ row.length)
    (h0 : 0 ≤ f.index)
    (him : f.index < env.magsun.length)
    (hil : f.index < env.lambdaEff.length)
    (hsm : st.MSUN_TABLE = none ∨ st.MSUN_TABLE = some env.magsun)
    (hsl : st.LAMBDA_EFF_TABLE = none ∨ st.LAMBDA_EFF_TABLE = some env.lambdaEff) :
    ((msun_ab env st f).1 = env.magsun[f.index.toNat]?.bind (fun row => row[1]?) ∧
      (msun_ab env st f).1 ≠ none) ∧
    ((msun_vega env st f).1 = env.magsun[f.index.toNat]?.bind (fun row => row[2]?) ∧
      (msun_vega env st f).1 ≠ none) ∧
    ((lambda_eff env st f).1 = env.lambdaEff[f.index.toNat]?.bind (fun row => row[1]?) ∧
      (lambda_eff env st f).1 ≠ none) := by
  rw [msun_ab_table env st f hsm, msun_vega_table env st f hsm,
    lambda_eff_table env st f hsl]
  exact ⟨npGet2_valid _ _ 1 h0 him (fun row hr => by have := hmr row hr; omega),
         npGet2_valid _ _ 2 h0 him (fun row hr => by have := hmr row hr; omega),
         npGet2_valid _ _ 1 h0 hil (fun row hr => by have := hlr row hr; omega)⟩

/-- C6 (witness): with one-row reference tables `[[0, 5, 6]]` and `[[0, 7]]`
and the filter of declared index 1, all three properties return a value. -/
theorem derived_properties_match_tables_witness :
    (msun_ab ⟨[[0, 5, 6]], [[0, 7]]⟩ initialState (Filter.init 1 "V" "v")).1 ≠ none ∧
    (msun_vega ⟨[[0, 5, 6]], [[0, 7]]⟩ initialState (Filter.init 1 "V" "v")).1 ≠ none ∧
    (lambda_eff ⟨[[0, 5, 6]], [[0, 7]]⟩ initialState (Filter.init 1 "V" "v")).1 ≠ none := by
  have h := derived_properties_match_tables ⟨[[0, 5, 6]], [[0, 7]]⟩ initialState
    (Filter.init 1 "V" "v") (by decide) (by decide) (by decide) (by decide) (by decide)
    (Or.inl rfl) (Or.inl rfl)
  exact ⟨h.1.2, h.2.1.2, h.2.2.2⟩

end FSPS
namespace FSPS

/-- C7: starting from the import-time state, the first access to a derived
property performs exactly one load of the relevant reference file and
caches its table; afterwards, any access by any filter on a state whose
cache holds that table leaves the state untouched (so no further file
read ever happens) and reads the cached array — even when the underlying
file environment has changed to `env2` in the meantime. -/
theorem table_caching (env env2 : Env) (f g : Filter) :
    ((msun_ab env initialState f).2.msunLoadCount = 1 ∧
     (msun_ab env initialState f).2.MSUN_TABLE = some env.magsun ∧
     (msun_ab env initialState f).1 = npGet2 env.magsun f.index 1) ∧
    ((msun_vega env initialState f).2.msunLoadCount = 1 ∧
     (msun_vega env initialState f).2.MSUN_TABLE = some env.magsun) ∧
    (∀ st : ModuleState, st.MSUN_TABLE = some env.magsun →
       msun_ab env2 st g = (npGet2 env.magsun g.index 1, st) ∧
       msun_vega env2 st g = (npGet2 env.magsun g.index 2, st)) ∧
    ((lambda_eff env initialState f).2.lambdaEffLoadCount = 1 ∧
     (lambda_eff env initialState f).2.LAMBDA_EFF_TABLE = some env.lambdaEff ∧
     (lambda_eff env initialState f).1 = npGet2 env.lambdaEff f.index 1) ∧
    (∀ st : ModuleState, st.LAMBDA_EFF_TABLE = some env.lambdaEff →
       lambda_eff env2 st g = (npGet2 env.lambdaEff g.index 1, st)) := by
  refine ⟨⟨rfl, rfl, rfl⟩, ⟨rfl, rfl⟩, ?_, ⟨rfl, rfl, rfl⟩, ?_⟩
  · intro st h
    constructor <;> simp [msun_ab, msun_vega, h]
  · intro st h
    simp [lambda_eff, h]

/-- C7 (witness): a concrete first access loads once; a later access on the
loaded state returns the cached value and the unchanged state although the
file environment changed. -/
theorem table_caching_witness :
    (msun_ab ⟨[[0, 5, 6]], [[0, 7]]⟩ initialState (Filter.init 1 "V" "v")).2.msunLoadCount = 1 ∧
    msun_ab ⟨[[9]], [[9]]⟩ ⟨some [[0, 5, 6]], none, 1, 0⟩ (Filter.init 1 "V" "v")
      = (npGet2 [[0, 5, 6]] (Filter.init 1 "V" "v").index 1,
         ⟨some [[0, 5, 6]], none, 1, 0⟩) := by
  have h1 := (table_caching ⟨[[0, 5, 6]], [[0, 7]]⟩ ⟨[[9]], [[9]]⟩
    (Filter.init 1 "V" "v") (Filter.init 1 "V" "v")).1.1
  have h2 := (table_caching ⟨[[0, 5, 6]], [[0, 7]]⟩ ⟨[[9]], [[9]]⟩
    (Filter.init 1 "V" "v") (Filter.init 1 "V" "v")).2.2.1
    ⟨some [[0, 5, 6]], none, 1, 0⟩ rfl
  exact ⟨h1, h2.1⟩

/-- C8: a filter whose stored index is at or beyond the row count of the
loaded tables fails with an out-of-range error (modelled as `none`) on all
three derived properties at the point of use, while catalog construction
itself is total: it never fails, whatever the declared index. -/
theorem out_of_range_index_fails (env : Env) (st : ModuleState) (f : Filter)
    (hm : (env.magsun.length : Int) ≤ f.index)
    (hl : (env.lambdaEff.length : Int) ≤ f.index)
    (hsm : st.MSUN_TABLE = none ∨ st.MSUN_TABLE = some env.magsun)
    (hsl : st.LAMBDA_EFF_TABLE = none ∨ st.LAMBDA_EFF_TABLE = some env.lambdaEff) :
    (msun_ab env st f).1 = none ∧ (msun_vega env st f).1 = none ∧
    (lambda_eff env st f).1 = none ∧
    (∀ (i : Int) (nm fn : String),
      Filter.init i nm fn = ⟨i - 1, strLower nm, fn⟩) := by
  refine ⟨?_, ?_, ?_, fun i nm fn => rfl⟩
  · rw [msun_ab_table env st f hsm]
    exact npGet2_of_ge _ _ _ hm
  · rw [msun_vega_table env st f hsm]
    exact npGet2_of_ge _ _ _ hm
  · rw [lambda_eff_table env st f hsl]
    exact npGet2_of_ge _ _ _ hl

/-- C8 (witness): with one-row reference tables, the last declared filter
(declared index 122, stored index 121) errors on `msun_ab`. -/
theorem out_of_range_index_fails_witness :
    (msun_ab ⟨[[0, 5, 6]], [[0, 7]]⟩ initialState
      (Filter.init 122 "JWST_F444W" "x")).1 = none := by
  exact (out_of_range_index_fails ⟨[[0, 5, 6]], [[0, 7]]⟩ initialState
    (Filter.init 122 "JWST_F444W" "x") (by decide) (by decide)
    (Or.inl rfl) (Or.inl rfl)).1

/-- C9: a declared index of 0 is accepted by the constructor and stored as
`-1`; on nonempty well-formed loaded tables, none of the three derived
properties raises an out-of-range error for it — each silently returns the
value from the table's last row (numpy negative-index wraparound). -/
theorem declared_index_zero_wraps (env : Env) (st : ModuleState) (nm fn : String)
    (hm : env.magsun ≠ []) (hl : env.lambdaEff ≠ [])
    (hmr : ∀ row ∈ env.magsun, 3 ≤ row.length)
    (hlr : ∀ row ∈ env.lambdaEff, 2 ≤ row.length)
    (hsm : st.MSUN_TABLE = none ∨ st.MSUN_TABLE = some env.magsun)
    (hsl : st.LAMBDA_EFF_TABLE = none ∨ st.LAMBDA_EFF_TABLE = some env.lambdaEff) :
    (Filter.init 0 nm fn).index = -1 ∧
    ((msun_ab env st (Filter.init 0 nm fn)).1 = (env.magsun.getLast hm)[1]? ∧
     (msun_ab env st (Filter.init 0 nm fn)).1 ≠ none) ∧
    ((msun_vega env st (Filter.init 0 nm fn)).1 = (env.magsun.getLast hm)[2]? ∧
     (msun_vega env st (Filter.init 0 nm fn)).1 ≠ none) ∧
    ((lambda_eff env st (Filter.init 0 nm fn)).1 = (env.lambdaEff.getLast hl)[1]? ∧
     (lambda_eff env st (Filter.init 0 nm fn)).1 ≠ none) := by
  have hidx : (Filter.init 0 nm fn).index = -1 := rfl
  refine ⟨hidx, ?_, ?_, ?_⟩
  · rw [msun_ab_table env st _ hsm, hidx]
    exact npGet2_neg_one env.magsun 1 hm (fun row hr => by have := hmr row hr; omega)
  · rw [msun_vega_table env st _ hsm, hidx]
    exact npGet2_neg_one env.magsun 2 hm (fun row hr => by have := hmr row hr; omega)
  · rw [lambda_eff_table env st _ hsl, hidx]
    exact npGet2_neg_one env.lambdaEff 1 hl (fun row hr => by have := hlr row hr; omega)

/-- C9 (witness): a `Filter` built from declared index 0 stores `-1` and all
three derived properties return a value on one-row loaded tables. -/
theorem declared_index_zero_wraps_witness :
    (Filter.init 0 "V" "v").index = -1 ∧
    (msun_ab ⟨[[0, 5, 6]], [[0, 7]]⟩ initialState (Filter.init 0 "V" "v")).1 ≠ none ∧
    (msun_vega ⟨[[0, 5, 6]], [[0, 7]]⟩ initialState (Filter.init 0 "V" "v")).1 ≠ none ∧
    (lambda_eff ⟨[[0, 5, 6]], [[0, 7]]⟩ initialState (Filter.init 0 "V" "v")).1 ≠ none := by
  have h := declared_index_zero_wraps ⟨[[0, 5, 6]], [[0, 7]]⟩ initialState "V" "v"
    (by decide) (by decide) (by decide) (by decide) (Or.inl rfl) (Or.inl rfl)
  exact ⟨h.1, h.2.1.2, h.2.2.1.2, h.2.2.2.2⟩

end FSPS
